import Mathlib

/-! Shallow embedding of the KravTrade launchpad repository: the SDK
(src/unnamed/part_000 together with src/sdk/types.ts), the seed derivations
reproduced in src/tests/kravtrade-launchpad.ts and src/scripts/deploy.ts, and a
model of the on-chain launchpad program reconstructed from the specification
where the program source is absent from the repository snapshot.
Machine integers (u64 lamport amounts, unix timestamps) are embedded as Nat;
all concrete inputs below stay far from 2^64 so wrap-around never occurs. -/

/-- Launch status enumeration from src/sdk/types.ts (enum LaunchStatus). -/
inductive LaunchStatus
  | pending
  | active
  | successful
  | failed
  | cancelled
  | paused
  deriving DecidableEq, Repr

/-- Vesting configuration from src/sdk/types.ts (interface VestingConfig).
Durations are seconds, initialUnlockPercentage is basis points. -/
structure VestingConfig where
  cliffDuration : Nat
  vestingDuration : Nat
  initialUnlockPercentage : Nat
  isLinear : Bool
  deriving DecidableEq, Repr

/-- Platform configuration record from src/sdk/types.ts (interface
PlatformConfig). Identities (admin, treasury) are embedded as opaque Nat ids;
the PDA bump byte is omitted as pure addressing metadata. -/
structure PlatformConfig where
  admin : Nat
  treasury : Nat
  platformFeePercentage : Nat
  minLaunchDuration : Nat
  maxLaunchDuration : Nat
  minSoftCap : Nat
  isPaused : Bool
  totalLaunches : Nat
  totalRaised : Nat
  totalFeesCollected : Nat
  deriving DecidableEq, Repr

/-- Launch record from src/sdk/types.ts (interface LaunchConfig). The token
mint address, project metadata strings and the PDA bump are omitted: they are
addressing/presentation data touched by none of the verified claims. -/
structure LaunchConfig where
  creator : Nat
  launchId : Nat
  name : String
  symbol : String
  decimals : Nat
  totalSupply : Nat
  presalePrice : Nat
  minContribution : Nat
  maxContribution : Nat
  softCap : Nat
  hardCap : Nat
  startTime : Nat
  endTime : Nat
  vestingConfig : VestingConfig
  status : LaunchStatus
  totalRaised : Nat
  contributorCount : Nat
  deriving DecidableEq, Repr

/-- Per-(launch, investor) record from src/sdk/types.ts (interface
InvestorAccount). The investor key and launch id are the map key in
LaunchpadState, the bump is omitted. -/
structure InvestorAccount where
  contributionAmount : Nat
  tokenAllocation : Nat
  claimedAmount : Nat
  lastClaimTime : Nat
  isRefunded : Bool
  deriving DecidableEq, Repr

/-- Modelled from the spec: the persistent state touched by one launch — the
singleton PlatformConfig, the launch record, and the contribution book keyed
by investor identity (record exists iff the map returns some). -/
structure LaunchpadState where
  platform : PlatformConfig
  launch : LaunchConfig
  contribs : Nat → Option InvestorAccount

/-- Modelled from the spec: the error taxonomy of section 7, restricted to the
codes reachable by the operations modelled here. The spec names no error for a
finalize call that is merely too early; that case is PresaleNotEnded here. -/
inductive LaunchError
  | InvalidPlatformFee
  | InvalidLaunchDuration
  | Unauthorized
  | MetadataTooLong
  | InvalidTokenParameters
  | InvalidCapConfiguration
  | SoftCapTooLow
  | InvalidSoftCap
  | EndTimeInPast
  | StartTimeAfterEndTime
  | LaunchDurationTooShort
  | LaunchDurationTooLong
  | PlatformPaused
  | PresaleNotActive
  | ContributionTooLow
  | ContributionTooHigh
  | HardCapExceeded
  | LaunchAlreadyFinalized
  | PresaleNotEnded
  deriving DecidableEq, Repr

/-- The canFinalize flag computed by getLaunchStats
(src/unnamed/part_000, lines 510-512): status === Active and
(currentTime > endTime or totalRaised >= hardCap). Note the strict >. -/
def sdkCanFinalize (status : LaunchStatus)
    (currentTime endTime totalRaised hardCap : Nat) : Bool :=
  decide (status = LaunchStatus.active) &&
    (decide (endTime < currentTime) || decide (hardCap ≤ totalRaised))

/-- Modelled from the spec: the finalize precondition of section 4.2 — the
on-chain finalize handler is not under src/. Finalization is permitted exactly
when status is Active and (now ≥ endTime or totalRaised ≥ hardCap). -/
def finalizePermitted (status : LaunchStatus)
    (now endTime totalRaised hardCap : Nat) : Bool :=
  decide (status = LaunchStatus.active) &&
    (decide (endTime ≤ now) || decide (hardCap ≤ totalRaised))

/-- JavaScript coercion `x || null` applied by the SDK's updatePlatformConfig
(src/unnamed/part_000, line 193) to the optional number argument
platformFeePercentage: undefined maps to null, and the number 0 is falsy and
also maps to null. -/
def jsOrNullNum (x : Option Nat) : Option Nat :=
  match x with
  | some v => if v = 0 then none else some v
  | none => none

/-- JavaScript coercion `x || null` applied by the SDK's updatePlatformConfig
(src/unnamed/part_000, lines 194-196) to the optional BN arguments: BN objects
are always truthy (a BN wrapping 0 included), so only undefined maps to null. -/
def jsOrNullBN (x : Option Nat) : Option Nat := x

/-- Modelled from the spec: the on-chain updatePlatformConfig handler of
section 4.1 is not under src/. Admin-only; each present field is revalidated
with the same constraints as platform initialization (fee ≤ 5000 basis points,
min duration < max duration); absent fields are unchanged. -/
def updatePlatformConfig (cfg : PlatformConfig) (caller : Nat)
    (fee minDur maxDur minSC : Option Nat) : Except LaunchError PlatformConfig :=
  if caller ≠ cfg.admin then Except.error LaunchError.Unauthorized
  else
    let fee' := fee.getD cfg.platformFeePercentage
    let minDur' := minDur.getD cfg.minLaunchDuration
    let maxDur' := maxDur.getD cfg.maxLaunchDuration
    let minSC' := minSC.getD cfg.minSoftCap
    if 5000 < fee' then Except.error LaunchError.InvalidPlatformFee
    else if maxDur' ≤ minDur' then Except.error LaunchError.InvalidLaunchDuration
    else Except.ok { cfg with
      platformFeePercentage := fee'
      minLaunchDuration := minDur'
      maxLaunchDuration := maxDur'
      minSoftCap := minSC' }

/-- The SDK update pipeline (src/unnamed/part_000, lines 181-213): each
optional argument is coerced with `|| null` before being handed to the
program's updatePlatformConfig instruction. -/
def sdkUpdatePlatformConfig (cfg : PlatformConfig) (caller : Nat)
    (fee minDur maxDur minSC : Option Nat) : Except LaunchError PlatformConfig :=
  updatePlatformConfig cfg caller
    (jsOrNullNum fee) (jsOrNullBN minDur) (jsOrNullBN maxDur) (jsOrNullBN minSC)

/-- Modelled from the spec: VestingCalculator.vested of section 4.4 — the
on-chain vesting code is not under src/ (getInvestorPosition in the SDK holds
only a placeholder). Given allocation a, config v, finalization time t0 and
query time t: immediate = a * unlockBps / 10000 (floor), granted at t0
regardless of cliff; before the cliff elapses only immediate is vested; after
cliff + duration everything is vested; in between, linear schedules vest
immediate + (a - immediate) * elapsed / duration (floor) and step schedules
stay at immediate. -/
def vested (a : Nat) (v : VestingConfig) (t0 t : Nat) : Nat :=
  if t < t0 + v.cliffDuration then a * v.initialUnlockPercentage / 10000
  else if t0 + v.cliffDuration + v.vestingDuration ≤ t then a
  else if v.isLinear then
    a * v.initialUnlockPercentage / 10000 +
      (a - a * v.initialUnlockPercentage / 10000) *
        (t - t0 - v.cliffDuration) / v.vestingDuration
  else a * v.initialUnlockPercentage / 10000

/-- Investor position as assembled by the SDK (src/sdk/types.ts interface
InvestorPosition, numeric fields). -/
structure InvestorPosition where
  claimableAmount : Nat
  vestedPercentage : Rat
  deriving DecidableEq

/-- getInvestorPosition (src/unnamed/part_000, lines 527-550): claimableAmount
is hard-coded to BN(0) (a placeholder — the comment says the vesting logic is
not implemented); vestedPercentage is claimed/allocation*100 when the
allocation is positive, 0 otherwise. The launch record and current time are
fetched but never used for the claimable amount. -/
def getInvestorPosition (acct : InvestorAccount) (cfg : LaunchConfig)
    (currentTime : Nat) : InvestorPosition :=
  { claimableAmount := 0
    vestedPercentage :=
      if 0 < acct.tokenAllocation then
        (acct.claimedAmount : Rat) / (acct.tokenAllocation : Rat) * 100
      else 0 }

/-- Outcome of the underlying transaction submission awaited inside the try
block of each SDK method: the rpc resolves with a signature, or throws an
Error object carrying a message, or throws a non-Error value. -/
inductive RpcOutcome
  | ok (signature : String)
  | errObj (message : String)
  | errOther
  deriving DecidableEq, Repr

/-- Transaction result from src/sdk/types.ts (interface TransactionResult). -/
structure TransactionResult where
  signature : String
  success : Bool
  error : Option String
  deriving DecidableEq, Repr

/-- The try/catch wrapper shared verbatim by every transaction-submitting SDK
method (initializePlatform, updatePlatformConfig, createLaunch, approveLaunch,
rejectLaunch, contribute, claimTokens in src/unnamed/part_000): on resolution
it returns the signature with success=true; on a thrown Error it returns
signature "" with success=false and error = error.message; on a thrown
non-Error it returns error = "Unknown error". -/
def runTx (o : RpcOutcome) : TransactionResult :=
  match o with
  | RpcOutcome.ok sig => { signature := sig, success := true, error := none }
  | RpcOutcome.errObj msg => { signature := "", success := false, error := some msg }
  | RpcOutcome.errOther =>
      { signature := "", success := false, error := some ("Unknown error") }

/-- UTF-8 bytes of a seed string, as produced by Buffer.from(s). -/
def utf8Bytes (s : String) : List Nat :=
  s.toUTF8.toList.map (fun b => b.toNat)

/-- The 8 little-endian bytes of a launch id, as produced by
BN.toArrayLike(Buffer, "le", 8). -/
def leBytes8 (n : Nat) : List Nat :=
  (List.range 8).map (fun i => n / 256 ^ i % 256)

/-- Input of PublicKey.findProgramAddressSync: the seed byte arrays and the
program id (an opaque Nat id). The derived address is a pure function of this
request, so equal requests yield equal addresses. -/
structure PdaRequest where
  seeds : List (List Nat)
  programId : Nat
  deriving DecidableEq

/-- Platform config PDA request built by the SDK
(src/unnamed/part_000, getPlatformConfigPDA, lines 88-96). -/
def sdkPlatformConfigRequest (pid : Nat) : PdaRequest :=
  { seeds := [utf8Bytes ("platform"), utf8Bytes ("config")], programId := pid }

/-- Launch config PDA request built by the SDK
(src/unnamed/part_000, getLaunchConfigPDA, lines 101-109). -/
def sdkLaunchConfigRequest (pid launchId : Nat) : PdaRequest :=
  { seeds := [utf8Bytes ("launch"), leBytes8 launchId], programId := pid }

/-- Investor account PDA request built by the SDK
(src/unnamed/part_000, getInvestorAccountPDA, lines 114-123). -/
def sdkInvestorAccountRequest (pid launchId : Nat) (investor : List Nat) : PdaRequest :=
  { seeds := [utf8Bytes ("investor"), leBytes8 launchId, investor], programId := pid }

/-- Platform config PDA request derived independently by the test suite
(src/tests/kravtrade-launchpad.ts, lines 75-78). -/
def testPlatformConfigRequest (pid : Nat) : PdaRequest :=
  { seeds := [utf8Bytes ("platform"), utf8Bytes ("config")], programId := pid }

/-- Launch config PDA request derived independently by the test suite
(src/tests/kravtrade-launchpad.ts, lines 80-83). -/
def testLaunchConfigRequest (pid launchId : Nat) : PdaRequest :=
  { seeds := [utf8Bytes ("launch"), leBytes8 launchId], programId := pid }

/-- Investor account PDA request derived independently by the test suite
(src/tests/kravtrade-launchpad.ts, lines 90-97). -/
def testInvestorAccountRequest (pid launchId : Nat) (investor : List Nat) : PdaRequest :=
  { seeds := [utf8Bytes ("investor"), leBytes8 launchId, investor], programId := pid }

/-- Platform config PDA request derived independently by the deploy script
(src/scripts/deploy.ts, lines 151-154). -/
def deployPlatformConfigRequest (pid : Nat) : PdaRequest :=
  { seeds := [utf8Bytes ("platform"), utf8Bytes ("config")], programId := pid }

/-- Parameters of createLaunch, from src/sdk/types.ts (interface
CreateLaunchParams; metadata omitted as in LaunchConfig). -/
structure CreateLaunchParams where
  launchId : Nat
  name : String
  symbol : String
  decimals : Nat
  totalSupply : Nat
  presalePrice : Nat
  minContribution : Nat
  maxContribution : Nat
  softCap : Nat
  hardCap : Nat
  startTime : Nat
  endTime : Nat
  vestingConfig : VestingConfig
  deriving DecidableEq, Repr

/-- Modelled from the spec: createLaunch of section 4.2 — the on-chain handler
is not under src/. Blocked while the platform is paused (section 4.1); then
validates, in the spec's order: name/symbol length bounds, decimals and
supply/price well-formedness, hardCap > softCap, softCap ≥ platform.minSoftCap,
minContribution ≤ maxContribution, endTime > now, startTime < endTime, and the
duration window. On success the launch starts Pending with zero totals and
platform.totalLaunches is incremented. -/
def createLaunch (platform : PlatformConfig) (p : CreateLaunchParams)
    (creator now : Nat) : Except LaunchError LaunchpadState :=
  if platform.isPaused then Except.error LaunchError.PlatformPaused
  else if 50 < p.name.length ∨ 10 < p.symbol.length then
    Except.error LaunchError.MetadataTooLong
  else if 18 < p.decimals ∨ p.totalSupply = 0 ∨ p.presalePrice = 0 then
    Except.error LaunchError.InvalidTokenParameters
  else if p.hardCap ≤ p.softCap then Except.error LaunchError.InvalidCapConfiguration
  else if p.softCap < platform.minSoftCap then Except.error LaunchError.SoftCapTooLow
  else if p.maxContribution < p.minContribution then Except.error LaunchError.InvalidSoftCap
  else if p.endTime ≤ now then Except.error LaunchError.EndTimeInPast
  else if p.endTime ≤ p.startTime then Except.error LaunchError.StartTimeAfterEndTime
  else if p.endTime - p.startTime < platform.minLaunchDuration then
    Except.error LaunchError.LaunchDurationTooShort
  else if platform.maxLaunchDuration < p.endTime - p.startTime then
    Except.error LaunchError.LaunchDurationTooLong
  else Except.ok
    { platform := { platform with totalLaunches := platform.totalLaunches + 1 }
      launch :=
        { creator := creator
          launchId := p.launchId
          name := p.name
          symbol := p.symbol
          decimals := p.decimals
          totalSupply := p.totalSupply
          presalePrice := p.presalePrice
          minContribution := p.minContribution
          maxContribution := p.maxContribution
          softCap := p.softCap
          hardCap := p.hardCap
          startTime := p.startTime
          endTime := p.endTime
          vestingConfig := p.vestingConfig
          status := LaunchStatus.pending
          totalRaised := 0
          contributorCount := 0 }
      contribs := fun _ => none }

/-- Cumulative contribution recorded for an investor (0 when no record). -/
def contributionOf (s : LaunchpadState) (investor : Nat) : Nat :=
  match s.contribs investor with
  | some c => c.contributionAmount
  | none => 0

/-- Modelled from the spec: approve of section 4.2 — the on-chain handler is
not under src/. Requires the caller to be the platform admin and the launch to
be Pending; transitions Pending to Active. -/
def approveLaunch (s : LaunchpadState) (caller : Nat) : Except LaunchError LaunchpadState :=
  if caller ≠ s.platform.admin then Except.error LaunchError.Unauthorized
  else if s.launch.status ≠ LaunchStatus.pending then Except.error LaunchError.Unauthorized
  else Except.ok { s with launch := { s.launch with status := LaunchStatus.active } }

/-- Modelled from the spec: reject of section 4.2 — the on-chain handler is
not under src/. Requires admin and Pending; transitions Pending to Cancelled. -/
def rejectLaunch (s : LaunchpadState) (caller : Nat) : Except LaunchError LaunchpadState :=
  if caller ≠ s.platform.admin then Except.error LaunchError.Unauthorized
  else if s.launch.status ≠ LaunchStatus.pending then Except.error LaunchError.Unauthorized
  else Except.ok { s with launch := { s.launch with status := LaunchStatus.cancelled } }

/-- Modelled from the spec: contribute of section 4.2 — the on-chain handler
is not under src/ (the test suite exercises it). Checks, in the spec's order:
platform not paused, status Active, now within [startTime, endTime],
amount ≥ minContribution, existing + amount ≤ maxContribution,
totalRaised + amount ≤ hardCap. Effect: creates or updates the investor's
record, increments contributorCount only on a first contribution, and adds the
amount to both the launch's and the platform's totalRaised. All checks precede
any mutation. -/
def contribute (s : LaunchpadState) (investor amount now : Nat) :
    Except LaunchError LaunchpadState :=
  if s.platform.isPaused then Except.error LaunchError.PlatformPaused
  else if s.launch.status ≠ LaunchStatus.active then Except.error LaunchError.PresaleNotActive
  else if now < s.launch.startTime ∨ s.launch.endTime < now then
    Except.error LaunchError.PresaleNotActive
  else if amount < s.launch.minContribution then Except.error LaunchError.ContributionTooLow
  else if s.launch.maxContribution < contributionOf s investor + amount then
    Except.error LaunchError.ContributionTooHigh
  else if s.launch.hardCap < s.launch.totalRaised + amount then
    Except.error LaunchError.HardCapExceeded
  else Except.ok
    { platform := { s.platform with totalRaised := s.platform.totalRaised + amount }
      launch := { s.launch with
        totalRaised := s.launch.totalRaised + amount
        contributorCount := s.launch.contributorCount +
          (if (s.contribs investor).isNone then 1 else 0) }
      contribs := fun j =>
        if j = investor then
          some (match s.contribs investor with
            | some c => { c with contributionAmount := c.contributionAmount + amount }
            | none =>
              { contributionAmount := amount
                tokenAllocation := 0
                claimedAmount := 0
                lastClaimTime := 0
                isRefunded := false })
        else s.contribs j }

/-- Modelled from the spec: finalize of section 4.2 — the on-chain handler is
not under src/. Requires status Active (LaunchAlreadyFinalized otherwise) and
(now ≥ endTime or totalRaised ≥ hardCap). If totalRaised ≥ softCap the launch
becomes Successful, each investor's allocation is contribution scaled by
decimals divided by presalePrice, and the fee totalRaised*feeBps/10000 is
added to the platform's collected fees; otherwise the launch becomes Failed
with no fund movement. -/
def finalizeLaunch (s : LaunchpadState) (now : Nat) : Except LaunchError LaunchpadState :=
  if s.launch.status ≠ LaunchStatus.active then
    Except.error LaunchError.LaunchAlreadyFinalized
  else if now < s.launch.endTime ∧ s.launch.totalRaised < s.launch.hardCap then
    Except.error LaunchError.PresaleNotEnded
  else if s.launch.softCap ≤ s.launch.totalRaised then
    Except.ok
      { platform := { s.platform with
          totalFeesCollected := s.platform.totalFeesCollected +
            s.launch.totalRaised * s.platform.platformFeePercentage / 10000 }
        launch := { s.launch with status := LaunchStatus.successful }
        contribs := fun j => (s.contribs j).map (fun c =>
          { c with tokenAllocation :=
              c.contributionAmount * 10 ^ s.launch.decimals / s.launch.presalePrice }) }
  else Except.ok { s with launch := { s.launch with status := LaunchStatus.failed } }

/-- Modelled from the spec: emergencyPause of section 4.2 — the on-chain
handler is not under src/. Admin-only, Active to Paused only. -/
def emergencyPause (s : LaunchpadState) (caller : Nat) : Except LaunchError LaunchpadState :=
  if caller ≠ s.platform.admin then Except.error LaunchError.Unauthorized
  else if s.launch.status ≠ LaunchStatus.active then Except.error LaunchError.PresaleNotActive
  else Except.ok { s with launch := { s.launch with status := LaunchStatus.paused } }

/-- Modelled from the spec: resume of section 4.2 — the on-chain handler is
not under src/. Admin-only, Paused back to Active only. -/
def resumeLaunch (s : LaunchpadState) (caller : Nat) : Except LaunchError LaunchpadState :=
  if caller ≠ s.platform.admin then Except.error LaunchError.Unauthorized
  else if s.launch.status ≠ LaunchStatus.paused then Except.error LaunchError.PresaleNotActive
  else Except.ok { s with launch := { s.launch with status := LaunchStatus.active } }

/-- One request against an existing launch. -/
inductive Op
  | approve (caller : Nat)
  | reject (caller : Nat)
  | contrib (investor amount now : Nat)
  | finalize (now : Nat)
  | pause (caller : Nat)
  | resume (caller : Nat)
  deriving DecidableEq, Repr

/-- Dispatch one request to the operation modelled from the spec. -/
def runOp (s : LaunchpadState) : Op → Except LaunchError LaunchpadState
  | Op.approve c => approveLaunch s c
  | Op.reject c => rejectLaunch s c
  | Op.contrib investor amount now => contribute s investor amount now
  | Op.finalize now => finalizeLaunch s now
  | Op.pause c => emergencyPause s c
  | Op.resume c => resumeLaunch s c

/-- All-or-nothing application of a request (spec section 5): a rejected
request leaves the state exactly as it was. -/
def step (s : LaunchpadState) (op : Op) : LaunchpadState :=
  match runOp s op with
  | Except.ok s' => s'
  | Except.error _ => s

/-- States obtained from a successful createLaunch followed by any sequence of
approve, reject, contribute, finalize, pause, resume requests. -/
inductive Reachable : LaunchpadState → Prop
  | created (platform : PlatformConfig) (p : CreateLaunchParams) (creator now : Nat)
      (s : LaunchpadState) (hok : createLaunch platform p creator now = Except.ok s) :
      Reachable s
  | stepped (s : LaunchpadState) (op : Op) (h : Reachable s) : Reachable (step s op)

/-- The vesting configuration of scenario E and of the test suite: no cliff,
30-day linear vesting, 10% initial unlock. -/
def scenE : VestingConfig :=
  { cliffDuration := 0
    vestingDuration := 2592000
    initialUnlockPercentage := 1000
    isLinear := true }

/-- The platform configuration set up by the test suite: fee 250 bps, duration
window 24h..30d, minSoftCap 1 SOL, not paused, zero totals; opaque ids 1 and 2
for admin and treasury. -/
def basePlatform : PlatformConfig :=
  { admin := 1
    treasury := 2
    platformFeePercentage := 250
    minLaunchDuration := 86400
    maxLaunchDuration := 2592000
    minSoftCap := 1000000000
    isPaused := false
    totalLaunches := 0
    totalRaised := 0
    totalFeesCollected := 0 }

/-- The launch parameters used by the test suite (lamport scale:
minContribution 0.01 SOL, maxContribution 10 SOL, softCap 1 SOL,
hardCap 10 SOL, presale window of about 11.5 days). -/
def baseParams : CreateLaunchParams :=
  { launchId := 1
    name := "Test Token"
    symbol := "TEST"
    decimals := 9
    totalSupply := 1000000000000000
    presalePrice := 100000000
    minContribution := 10000000
    maxContribution := 10000000000
    softCap := 1000000000
    hardCap := 10000000000
    startTime := 1000
    endTime := 1000000
    vestingConfig := scenE }

/-- The state produced by createLaunch basePlatform baseParams at time 100 by
creator 5: a Pending launch with zero totals. -/
def launched : LaunchpadState :=
  { platform := { basePlatform with totalLaunches := 1 }
    launch :=
      { creator := 5
        launchId := 1
        name := "Test Token"
        symbol := "TEST"
        decimals := 9
        totalSupply := 1000000000000000
        presalePrice := 100000000
        minContribution := 10000000
        maxContribution := 10000000000
        softCap := 1000000000
        hardCap := 10000000000
        startTime := 1000
        endTime := 1000000
        vestingConfig := scenE
        status := LaunchStatus.pending
        totalRaised := 0
        contributorCount := 0 }
    contribs := fun _ => none }

/-- The launched state after admin approval: status Active. -/
def activeState : LaunchpadState :=
  { launched with launch := { launched.launch with status := LaunchStatus.active } }

/-- activeState after investor 7 contributes 0.5 SOL at time 2000. -/
def demoOne : LaunchpadState := step activeState (Op.contrib 7 500000000 2000)

/-- demoOne after investor 7 contributes another 0.3 SOL at time 2500. -/
def demoTwo : LaunchpadState := step demoOne (Op.contrib 7 300000000 2500)

/-- The launched state with a terminal Successful status, for exercising a
second finalize call. -/
def finalizedState : LaunchpadState :=
  { launched with launch := { launched.launch with status := LaunchStatus.successful } }

/-- Helper: a successful createLaunch establishes the cap invariants. -/
theorem createLaunch_ok_caps (platform : PlatformConfig) (p : CreateLaunchParams)
    (creator now : Nat) (s : LaunchpadState)
    (h : createLaunch platform p creator now = Except.ok s) :
    s.launch.softCap < s.launch.hardCap ∧ s.launch.totalRaised ≤ s.launch.hardCap := by
  rw [createLaunch.eq_1] at h
  by_cases h1 : platform.isPaused = true
  · rw [if_pos h1] at h
    cases h
  rw [if_neg h1] at h
  by_cases h2 : 50 < p.name.length ∨ 10 < p.symbol.length
  · rw [if_pos h2] at h
    cases h
  rw [if_neg h2] at h
  by_cases h3 : 18 < p.decimals ∨ p.totalSupply = 0 ∨ p.presalePrice = 0
  · rw [if_pos h3] at h
    cases h
  rw [if_neg h3] at h
  by_cases h4 : p.hardCap ≤ p.softCap
  · rw [if_pos h4] at h
    cases h
  rw [if_neg h4] at h
  by_cases h5 : p.softCap < platform.minSoftCap
  · rw [if_pos h5] at h
    cases h
  rw [if_neg h5] at h
  by_cases h6 : p.maxContribution < p.minContribution
  · rw [if_pos h6] at h
    cases h
  rw [if_neg h6] at h
  by_cases h7 : p.endTime ≤ now
  · rw [if_pos h7] at h
    cases h
  rw [if_neg h7] at h
  by_cases h8 : p.endTime ≤ p.startTime
  · rw [if_pos h8] at h
    cases h
  rw [if_neg h8] at h
  by_cases h9 : p.endTime - p.startTime < platform.minLaunchDuration
  · rw [if_pos h9] at h
    cases h
  rw [if_neg h9] at h
  by_cases h10 : platform.maxLaunchDuration < p.endTime - p.startTime
  · rw [if_pos h10] at h
    cases h
  rw [if_neg h10] at h
  cases h
  constructor
  · simp
    omega
  · simp

/-- Helper: every accepted request preserves both caps and either leaves
totalRaised unchanged or keeps it at most the hard cap. -/
theorem runOp_ok_caps (s s' : LaunchpadState) (op : Op) (h : runOp s op = Except.ok s') :
    s'.launch.softCap = s.launch.softCap ∧ s'.launch.hardCap = s.launch.hardCap ∧
      (s'.launch.totalRaised = s.launch.totalRaised ∨
        s'.launch.totalRaised ≤ s.launch.hardCap) := by
  cases op with
  | approve c =>
      rw [runOp, approveLaunch.eq_1] at h
      by_cases h1 : c ≠ s.platform.admin
      · rw [if_pos h1] at h
        cases h
      rw [if_neg h1] at h
      by_cases h2 : s.launch.status ≠ LaunchStatus.pending
      · rw [if_pos h2] at h
        cases h
      rw [if_neg h2] at h
      cases h
      exact ⟨rfl, rfl, Or.inl rfl⟩
  | reject c =>
      rw [runOp, rejectLaunch.eq_1] at h
      by_cases h1 : c ≠ s.platform.admin
      · rw [if_pos h1] at h
        cases h
      rw [if_neg h1] at h
      by_cases h2 : s.launch.status ≠ LaunchStatus.pending
      · rw [if_pos h2] at h
        cases h
      rw [if_neg h2] at h
      cases h
      exact ⟨rfl, rfl, Or.inl rfl⟩
  | contrib investor amount now =>
      rw [runOp, contribute.eq_1] at h
      by_cases h1 : s.platform.isPaused = true
      · rw [if_pos h1] at h
        cases h
      rw [if_neg h1] at h
      by_cases h2 : s.launch.status ≠ LaunchStatus.active
      · rw [if_pos h2] at h
        cases h
      rw [if_neg h2] at h
      by_cases h3 : now < s.launch.startTime ∨ s.launch.endTime < now
      · rw [if_pos h3] at h
        cases h
      rw [if_neg h3] at h
      by_cases h4 : amount < s.launch.minContribution
      · rw [if_pos h4] at h
        cases h
      rw [if_neg h4] at h
      by_cases h5 : s.launch.maxContribution < contributionOf s investor + amount
      · rw [if_pos h5] at h
        cases h
      rw [if_neg h5] at h
      by_cases h6 : s.launch.hardCap < s.launch.totalRaised + amount
      · rw [if_pos h6] at h
        cases h
      rw [if_neg h6] at h
      cases h
      refine ⟨rfl, rfl, Or.inr ?_⟩
      simp
      omega
  | finalize now =>
      rw [runOp, finalizeLaunch.eq_1] at h
      by_cases h1 : s.launch.status ≠ LaunchStatus.active
      · rw [if_pos h1] at h
        cases h
      rw [if_neg h1] at h
      by_cases h2 : now < s.launch.endTime ∧ s.launch.totalRaised < s.launch.hardCap
      · rw [if_pos h2] at h
        cases h
      rw [if_neg h2] at h
      by_cases h3 : s.launch.softCap ≤ s.launch.totalRaised
      · rw [if_pos h3] at h
        cases h
        exact ⟨rfl, rfl, Or.inl rfl⟩
      rw [if_neg h3] at h
      cases h
      exact ⟨rfl, rfl, Or.inl rfl⟩
  | pause c =>
      rw [runOp, emergencyPause.eq_1] at h
      by_cases h1 : c ≠ s.platform.admin
      · rw [if_pos h1] at h
        cases h
      rw [if_neg h1] at h
      by_cases h2 : s.launch.status ≠ LaunchStatus.active
      · rw [if_pos h2] at h
        cases h
      rw [if_neg h2] at h
      cases h
      exact ⟨rfl, rfl, Or.inl rfl⟩
  | resume c =>
      rw [runOp, resumeLaunch.eq_1] at h
      by_cases h1 : c ≠ s.platform.admin
      · rw [if_pos h1] at h
        cases h
      rw [if_neg h1] at h
      by_cases h2 : s.launch.status ≠ LaunchStatus.paused
      · rw [if_pos h2] at h
        cases h
      rw [if_neg h2] at h
      cases h
      exact ⟨rfl, rfl, Or.inl rfl⟩

/-- Claim C1: the spec's finalize rule permits finalization at the instant
now = endTime for an Active launch below its hard cap (the modelled finalize
indeed accepts and selects the Failed branch there), but the SDK's canFinalize
flag from getLaunchStats compares with strict > and reports false at that
instant. -/
theorem sdk_canFinalize_misses_endTime_boundary :
    finalizePermitted LaunchStatus.active 1000000 1000000 0 10000000000 = true ∧
    sdkCanFinalize LaunchStatus.active 1000000 1000000 0 10000000000 = false ∧
    finalizeLaunch activeState 1000000 =
      Except.ok { activeState with
        launch := { activeState.launch with status := LaunchStatus.failed } } :=
  ⟨by decide, by decide, rfl⟩

/-- Claim C2: a platform-config patch whose platformFeePercentage is present
with value 0 is silently dropped by the SDK (JavaScript 0 || null coerces it
to an absent field), leaving the fee at 250, whereas the modelled update with
the field genuinely present sets the fee to 0. -/
theorem sdk_update_drops_zero_fee :
    sdkUpdatePlatformConfig basePlatform 1 (some 0) none none none =
      Except.ok basePlatform ∧
    updatePlatformConfig basePlatform 1 (some 0) none none none =
      Except.ok { basePlatform with platformFeePercentage := 0 } :=
  ⟨rfl, rfl⟩

/-- Claim C3: for a linear schedule queried inside the vesting window
(t0 + cliff ≤ t < t0 + cliff + duration), the vested amount is
floor(A*u/10000) + floor((A - floor(A*u/10000))*(t - t0 - cliff)/duration);
scenario E (allocation 1000, no cliff, 30-day duration, 10% initial unlock)
vests 100 at t0, 550 at t0 + 15 days, 1000 at t0 + 30 days. -/
theorem vested_linear_formula (a : Nat) (v : VestingConfig) (t0 t : Nat)
    (hlin : v.isLinear = true)
    (h1 : t0 + v.cliffDuration ≤ t)
    (h2 : t < t0 + v.cliffDuration + v.vestingDuration) :
    vested a v t0 t =
      a * v.initialUnlockPercentage / 10000 +
        (a - a * v.initialUnlockPercentage / 10000) * (t - t0 - v.cliffDuration) /
          v.vestingDuration ∧
    vested 1000 scenE 0 0 = 100 ∧
    vested 1000 scenE 0 1296000 = 550 ∧
    vested 1000 scenE 0 2592000 = 1000 := by
  refine ⟨?_, by decide, by decide, by decide⟩
  unfold vested
  rw [if_neg (by omega), if_neg (by omega), if_pos hlin]

/-- Witness for claim C3 at allocation 1000, scenario-E config, t0 = 0,
t = 15 days. -/
theorem vested_linear_formula_witness :
    vested 1000 scenE 0 1296000 =
      1000 * scenE.initialUnlockPercentage / 10000 +
        (1000 - 1000 * scenE.initialUnlockPercentage / 10000) *
          (1296000 - 0 - scenE.cliffDuration) / scenE.vestingDuration :=
  (vested_linear_formula 1000 scenE 0 1296000 rfl (by decide) (by decide)).1

/-- Claim C4: the PDA derivations of the SDK agree with the independent
derivations in the test suite and the deploy script — the platform config
request from the tags "platform","config", the launch request from the tag
"launch" plus the 8 little-endian bytes of launchId, and the investor request
from the tag "investor" plus launchId plus the investor key. Being Lean
functions of their inputs, all derivations are deterministic, and equal
requests are mapped to equal addresses by findProgramAddressSync. -/
theorem pda_derivations_agree (pid launchId : Nat) (investor : List Nat) :
    sdkPlatformConfigRequest pid = testPlatformConfigRequest pid ∧
    sdkPlatformConfigRequest pid = deployPlatformConfigRequest pid ∧
    sdkLaunchConfigRequest pid launchId = testLaunchConfigRequest pid launchId ∧
    sdkInvestorAccountRequest pid launchId investor =
      testInvestorAccountRequest pid launchId investor :=
  ⟨rfl, rfl, rfl, rfl⟩

/-- Claim C5: for an Active, unpaused launch inside its time window, a
contribution below minContribution fails with ContributionTooLow, one pushing
the investor's cumulative contribution past maxContribution fails with
ContributionTooHigh, and one pushing totalRaised past hardCap fails with
HardCapExceeded; in each failing case the state is unchanged. -/
theorem contribute_error_cases (s : LaunchpadState) (investor amount now : Nat)
    (hp : s.platform.isPaused = false)
    (hst : s.launch.status = LaunchStatus.active)
    (hw1 : s.launch.startTime ≤ now) (hw2 : now ≤ s.launch.endTime) :
    (amount < s.launch.minContribution →
        contribute s investor amount now = Except.error LaunchError.ContributionTooLow ∧
        step s (Op.contrib investor amount now) = s) ∧
    (s.launch.minContribution ≤ amount →
      s.launch.maxContribution < contributionOf s investor + amount →
        contribute s investor amount now = Except.error LaunchError.ContributionTooHigh ∧
        step s (Op.contrib investor amount now) = s) ∧
    (s.launch.minContribution ≤ amount →
      contributionOf s investor + amount ≤ s.launch.maxContribution →
      s.launch.hardCap < s.launch.totalRaised + amount →
        contribute s investor amount now = Except.error LaunchError.HardCapExceeded ∧
        step s (Op.contrib investor amount now) = s) := by
  have hnp : ¬ s.platform.isPaused = true := by simp [hp]
  have hns : ¬ s.launch.status ≠ LaunchStatus.active := by simp [hst]
  have hnw : ¬ (now < s.launch.startTime ∨ s.launch.endTime < now) := by omega
  refine ⟨fun hlow => ?_, fun hge hhigh => ?_, fun hge hok hcap => ?_⟩
  · have hc : contribute s investor amount now =
        Except.error LaunchError.ContributionTooLow := by
      unfold contribute
      rw [if_neg hnp, if_neg hns, if_neg hnw, if_pos hlow]
    exact ⟨hc, by simp [step, runOp, hc]⟩
  · have hc : contribute s investor amount now =
        Except.error LaunchError.ContributionTooHigh := by
      unfold contribute
      rw [if_neg hnp, if_neg hns, if_neg hnw, if_neg (by omega), if_pos hhigh]
    exact ⟨hc, by simp [step, runOp, hc]⟩
  · have hc : contribute s investor amount now =
        Except.error LaunchError.HardCapExceeded := by
      unfold contribute
      rw [if_neg hnp, if_neg hns, if_neg hnw, if_neg (by omega), if_neg (by omega),
        if_pos hcap]
    exact ⟨hc, by simp [step, runOp, hc]⟩

/-- Witness for claim C5: on the test launch (minContribution 0.01 SOL), a
5-lamport contribution fails with ContributionTooLow and changes nothing. -/
theorem contribute_error_cases_witness :
    contribute activeState 7 5 2000 = Except.error LaunchError.ContributionTooLow ∧
    step activeState (Op.contrib 7 5 2000) = activeState :=
  (contribute_error_cases activeState 7 5 2000 rfl rfl (by decide) (by decide)).1
    (by decide)

/-- Claim C6: a successful contribution adds its amount to the launch's and
the platform's totalRaised and to the investor's cumulative contribution, and
increments contributorCount only when it is the investor's first contribution;
on the test launch (softCap 1 SOL, hardCap 10 SOL, minContribution 0.01 SOL,
maxContribution 10 SOL), contributing 0.5 SOL then 0.3 SOL leaves
contributionAmount 0.8 SOL and contributorCount 1. -/
theorem contribute_accumulates (s : LaunchpadState) (investor amount now : Nat)
    (hp : s.platform.isPaused = false)
    (hst : s.launch.status = LaunchStatus.active)
    (hw1 : s.launch.startTime ≤ now) (hw2 : now ≤ s.launch.endTime)
    (hmin : s.launch.minContribution ≤ amount)
    (hmax : contributionOf s investor + amount ≤ s.launch.maxContribution)
    (hcap : s.launch.totalRaised + amount ≤ s.launch.hardCap) :
    ((step s (Op.contrib investor amount now)).launch.totalRaised =
        s.launch.totalRaised + amount ∧
      (step s (Op.contrib investor amount now)).platform.totalRaised =
        s.platform.totalRaised + amount ∧
      contributionOf (step s (Op.contrib investor amount now)) investor =
        contributionOf s investor + amount ∧
      (step s (Op.contrib investor amount now)).launch.contributorCount =
        s.launch.contributorCount + (if (s.contribs investor).isNone then 1 else 0)) ∧
    (contributionOf demoOne 7 = 500000000 ∧
      demoOne.launch.contributorCount = 1 ∧
      demoOne.launch.totalRaised = 500000000 ∧
      contributionOf demoTwo 7 = 800000000 ∧
      demoTwo.launch.contributorCount = 1 ∧
      demoTwo.launch.totalRaised = 800000000) := by
  have hc : contribute s investor amount now = Except.ok
      { platform := { s.platform with totalRaised := s.platform.totalRaised + amount }
        launch := { s.launch with
          totalRaised := s.launch.totalRaised + amount
          contributorCount := s.launch.contributorCount +
            (if (s.contribs investor).isNone then 1 else 0) }
        contribs := fun j =>
          if j = investor then
            some (match s.contribs investor with
              | some c => { c with contributionAmount := c.contributionAmount + amount }
              | none =>
                { contributionAmount := amount
                  tokenAllocation := 0
                  claimedAmount := 0
                  lastClaimTime := 0
                  isRefunded := false })
          else s.contribs j } := by
    unfold contribute
    rw [if_neg (by simp [hp]), if_neg (by simp [hst]), if_neg (by omega),
      if_neg (by omega), if_neg (by omega), if_neg (by omega)]
  have hstep : step s (Op.contrib investor amount now) =
      { platform := { s.platform with totalRaised := s.platform.totalRaised + amount }
        launch := { s.launch with
          totalRaised := s.launch.totalRaised + amount
          contributorCount := s.launch.contributorCount +
            (if (s.contribs investor).isNone then 1 else 0) }
        contribs := fun j =>
          if j = investor then
            some (match s.contribs investor with
              | some c => { c with contributionAmount := c.contributionAmount + amount }
              | none =>
                { contributionAmount := amount
                  tokenAllocation := 0
                  claimedAmount := 0
                  lastClaimTime := 0
                  isRefunded := false })
          else s.contribs j } := by
    simp [step, runOp, hc]
  refine ⟨⟨?_, ?_, ?_, ?_⟩, by decide, by decide, by decide, by decide, by decide,
    by decide⟩
  · rw [hstep]
  · rw [hstep]
  · rw [hstep]
    cases hco : s.contribs investor with
    | some c => simp [contributionOf, hco]
    | none => simp [contributionOf, hco]
  · rw [hstep]

/-- Witness for claim C6: the second 0.3 SOL contribution of investor 7 on top
of demoOne adds to the launch's totalRaised. -/
theorem contribute_accumulates_witness :
    (step demoOne (Op.contrib 7 300000000 2500)).launch.totalRaised =
      demoOne.launch.totalRaised + 300000000 :=
  ((contribute_accumulates demoOne 7 300000000 2500 (by decide) (by decide)
    (by decide) (by decide) (by decide) (by decide) (by decide)).1).1

/-- Claim C7: every state reachable from a successful createLaunch through any
sequence of approve, reject, contribute, finalize, pause, resume requests
satisfies softCap < hardCap and totalRaised ≤ hardCap. -/
theorem reachable_cap_invariants (s : LaunchpadState) (h : Reachable s) :
    s.launch.softCap < s.launch.hardCap ∧ s.launch.totalRaised ≤ s.launch.hardCap := by
  induction h with
  | created platform p creator now s hok =>
      exact createLaunch_ok_caps platform p creator now s hok
  | stepped s' op hr ih =>
      unfold step
      cases hq : runOp s' op with
      | error e => exact ih
      | ok s2 =>
          show s2.launch.softCap < s2.launch.hardCap ∧
            s2.launch.totalRaised ≤ s2.launch.hardCap
          obtain ⟨e1, e2, e3⟩ := runOp_ok_caps s' s2 op hq
          refine ⟨by rw [e1, e2]; exact ih.1, ?_⟩
          rcases e3 with e3 | e3
          · rw [e3, e2]
            exact ih.2
          · rw [e2]
            exact e3

/-- Witness for claim C7 at the concrete state created by the test launch
parameters. -/
theorem reachable_cap_invariants_witness :
    launched.launch.softCap < launched.launch.hardCap ∧
    launched.launch.totalRaised ≤ launched.launch.hardCap :=
  reachable_cap_invariants launched
    (Reachable.created basePlatform baseParams 5 100 launched rfl)

/-- Claim C8: a finalize call on a launch whose status is already Successful,
Failed or Cancelled returns LaunchAlreadyFinalized and leaves the whole state
(launch record, contribution book and platform record) unchanged. -/
theorem finalize_idempotent_failure (s : LaunchpadState) (now : Nat)
    (h : s.launch.status = LaunchStatus.successful ∨
      s.launch.status = LaunchStatus.failed ∨
      s.launch.status = LaunchStatus.cancelled) :
    finalizeLaunch s now = Except.error LaunchError.LaunchAlreadyFinalized ∧
    step s (Op.finalize now) = s := by
  have hne : s.launch.status ≠ LaunchStatus.active := by
    rcases h with h | h | h <;> simp [h]
  have hfin : finalizeLaunch s now = Except.error LaunchError.LaunchAlreadyFinalized := by
    unfold finalizeLaunch
    rw [if_pos hne]
  exact ⟨hfin, by simp [step, runOp, hfin]⟩

/-- Witness for claim C8: a second finalize on a Successful launch fails and
changes nothing. -/
theorem finalize_idempotent_failure_witness :
    finalizeLaunch finalizedState 999 = Except.error LaunchError.LaunchAlreadyFinalized ∧
    step finalizedState (Op.finalize 999) = finalizedState :=
  finalize_idempotent_failure finalizedState 999 (Or.inl rfl)

/-- Claim C9: the SDK's getInvestorPosition returns claimableAmount 0 for
every investor account, launch configuration and current time — the field is
a hard-coded placeholder. -/
theorem getInvestorPosition_claimable_zero (acct : InvestorAccount)
    (cfg : LaunchConfig) (currentTime : Nat) :
    (getInvestorPosition acct cfg currentTime).claimableAmount = 0 := rfl

/-- Counterexample for claim C10: when the underlying rpc throws an Error
whose message is the empty string, the wrapper returns success false and
signature "" as claimed, but the error message it reports is the empty
string — not a non-empty message. -/
theorem runTx_empty_error_message :
    (runTx (RpcOutcome.errObj (""))).success = false ∧
    (runTx (RpcOutcome.errObj (""))).signature = "" ∧
    (runTx (RpcOutcome.errObj (""))).error = some ("") :=
  ⟨rfl, rfl, rfl⟩

/-- Claim C10 (amended): the SDK transaction wrapper is a total function —
never a throw; on success it returns success=true with the signature and no
error; on a thrown Error it returns success=false, signature "" and the
Error's message verbatim (possibly empty); on a thrown non-Error it returns
success=false, signature "" and the message "Unknown error"; whenever
success=false the signature is "" and an error string is present. -/
theorem runTx_result_spec (o : RpcOutcome) :
    (∀ sig, o = RpcOutcome.ok sig →
        runTx o = { signature := sig, success := true, error := none }) ∧
    (∀ msg, o = RpcOutcome.errObj msg →
        runTx o = { signature := "", success := false, error := some msg }) ∧
    (o = RpcOutcome.errOther →
        runTx o = { signature := "", success := false, error := some ("Unknown error") }) ∧
    ((runTx o).success = false →
        (runTx o).signature = "" ∧ (runTx o).error.isSome = true) := by
  cases o <;> simp [runTx]

/-- Witness for claim C10 at a concrete thrown Error with message "boom". -/
theorem runTx_result_spec_witness :
    runTx (RpcOutcome.errObj ("boom")) =
      { signature := "", success := false, error := some ("boom") } :=
  (runTx_result_spec (RpcOutcome.errObj ("boom"))).2.1 ("boom") rfl
